import Mathlib

/-
Verification of the leafgraph-server token lifecycle and storage backend
subsystems, as shallow Lean embeddings of the TypeScript source
(src/services/token.service.ts, src/db/database.factory.ts,
src/db/providers/mongodb.provider.ts, src/middleware/auth.middleware.ts,
src/api/controllers/user.controller.ts).
-/

namespace LeafGraph

/-! ## Token data model (src/services/token.service.ts) -/

/-- TokenType enum: ACCESS = "access", REFRESH = "refresh". -/
inductive TokenType
  | access
  | refresh
deriving DecidableEq, Repr

/-- TokenPayload interface: id, username, role, type. -/
structure TokenPayload where
  id : String
  username : String
  role : String
  type : TokenType
deriving DecidableEq, Repr

/-- A JWT string is modelled by its decoded content: either a malformed
envelope, or a signed envelope with payload, issued-at and expiration
timestamps (seconds), and a signature.  The HMAC signature produced by
jwt.sign with a secret is abstracted as the secret itself, so a signature
check is equality with the verifying secret. -/
inductive Jwt
  | malformed (raw : String)
  | signed (payload : TokenPayload) (iat : Nat) (exp : Nat) (sig : String)
deriving DecidableEq, Repr

inductive JwtError
  | malformedToken
  | badSignature
  | expired
deriving DecidableEq, Repr

/-- jwt.sign(payload, secret, \x7bexpiresIn\x7d): issues a signed envelope
whose expiration is `expiresInSec` seconds after `now`. -/
def jwtSign (payload : TokenPayload) (secret : String) (now : Nat)
    (expiresInSec : Nat) : Jwt :=
  .signed payload now (now + expiresInSec) secret

/-- jwt.verify(token, secret) at clock time `now`: throws (here: returns
`.error`) on a malformed envelope, a signature not produced with `secret`,
or an expiration timestamp not in the future; otherwise returns the decoded
payload. -/
def jwtVerify (t : Jwt) (secret : String) (now : Nat) :
    Except JwtError TokenPayload :=
  match t with
  | .malformed _ => .error .malformedToken
  | .signed p _ exp sig =>
    if sig ≠ secret then .error .badSignature
    else if exp ≤ now then .error .expired
    else .ok p

/-- The slice of the IUser mongoose document read by the token service:
_id (stringified), username, role.  The stringification on line 58 of
token.service.ts is the identity here because ids are modelled as strings. -/
structure IUser where
  _id : String
  username : String
  email : String
  password : String
  role : String
deriving DecidableEq, Repr

/-! ## TokenService (src/services/token.service.ts) -/

/-- TokenService.generateAccessToken: payload from the user with
type ACCESS, signed with the process secret, expiresIn "15m". -/
def generateAccessToken (user : IUser) (secret : String) (now : Nat) : Jwt :=
  jwtSign
    { id := user._id, username := user.username, role := user.role,
      type := .access }
    secret now (15 * 60)

/-- TokenService.generateRefreshToken: payload from the user with
type REFRESH, signed with the process secret, expiresIn "7d". -/
def generateRefreshToken (user : IUser) (secret : String) (now : Nat) : Jwt :=
  jwtSign
    { id := user._id, username := user.username, role := user.role,
      type := .refresh }
    secret now (7 * 24 * 60 * 60)

/-- TokenService.verifyToken (lines 94-112): jwt.verify inside a
try/catch that returns null on any throw, then returns null on a type
mismatch, else the decoded payload. -/
def verifyToken (token : Jwt) (expected : TokenType) (secret : String)
    (now : Nat) : Option TokenPayload :=
  match jwtVerify token secret now with
  | .ok decoded => if decoded.type ≠ expected then none else some decoded
  | .error _ => none

/-- TokenService.generateAuthTokens (lines 119-124): the access/refresh
pair. -/
def generateAuthTokens (user : IUser) (secret : String) (now : Nat) :
    Jwt × Jwt :=
  (generateAccessToken user secret now, generateRefreshToken user secret now)

/-- Projection of the expiration timestamp of an issued envelope. -/
def tokenExp : Jwt → Option Nat
  | .malformed _ => none
  | .signed _ _ exp _ => some exp

/-- Projection of the issued-at timestamp of an issued envelope. -/
def tokenIat : Jwt → Option Nat
  | .malformed _ => none
  | .signed _ iat _ _ => some iat

/-! ## Cookies (token.service.ts lines 28-45, 131-149) -/

/-- The sameSite values used by the source: "none" in production,
"lax" otherwise. -/
inductive SameSitePolicy
  | sameSiteNone
  | lax
deriving DecidableEq, Repr

/-- Express cookie options as set by the source; maxAge is in
milliseconds. -/
structure CookieOptions where
  httpOnly : Bool
  secure : Bool
  sameSite : SameSitePolicy
  path : String
  maxAgeMs : Option Nat := none
deriving DecidableEq, Repr

/-- cookieOptions constant (lines 28-33), parameterised by
config.isProduction. -/
def cookieOptions (isProduction : Bool) : CookieOptions :=
  { httpOnly := true
    secure := isProduction
    sameSite := if isProduction then .sameSiteNone else .lax
    path := "/" }

/-- accessTokenCookieOptions (lines 36-39): cookieOptions plus a
15-minute maxAge in milliseconds. -/
def accessTokenCookieOptions (isProduction : Bool) : CookieOptions :=
  { cookieOptions isProduction with maxAgeMs := some (15 * 60 * 1000) }

/-- refreshTokenCookieOptions (lines 42-45): cookieOptions plus a
7-day maxAge in milliseconds. -/
def refreshTokenCookieOptions (isProduction : Bool) : CookieOptions :=
  { cookieOptions isProduction with maxAgeMs := some (7 * 24 * 60 * 60 * 1000) }

/-- The Max-Age attribute on the wire, in seconds (Express divides the
millisecond maxAge by 1000). -/
def maxAgeSeconds (opts : CookieOptions) : Option Nat :=
  opts.maxAgeMs.map (fun ms => ms / 1000)

/-- One cookie operation performed on the Express response. -/
inductive CookieOp
  | setCookie (name : String) (value : Jwt) (options : CookieOptions)
  | clearCookie (name : String) (options : CookieOptions)
deriving DecidableEq, Repr

/-- TokenService.setAuthCookies (lines 131-138): issues both tokens and
sets the two cookies, access_token first. -/
def setAuthCookies (user : IUser) (secret : String) (now : Nat)
    (isProduction : Bool) : List CookieOp :=
  let tokens := generateAuthTokens user secret now
  [ .setCookie "access_token" tokens.1 (accessTokenCookieOptions isProduction),
    .setCookie "refresh_token" tokens.2 (refreshTokenCookieOptions isProduction) ]

/-- TokenService.clearAuthCookies (lines 144-149): clears both cookies
with the base cookieOptions. -/
def clearAuthCookies (isProduction : Bool) : List CookieOp :=
  [ .clearCookie "access_token" (cookieOptions isProduction),
    .clearCookie "refresh_token" (cookieOptions isProduction) ]

/-! ## Auth middleware (src/middleware/auth.middleware.ts) -/

/-- Outcome of the authenticateJwt middleware: a 401 without a token, a
401 on a failed jwt.verify, or next() with req.user set to the decoded
payload. -/
inductive AuthOutcome
  | unauthorizedNoToken
  | unauthorizedInvalidToken
  | authenticated (user : TokenPayload)
deriving DecidableEq, Repr

/-- authenticateJwt (auth.middleware.ts lines 129-184): reads the
access_token cookie, falls back to the token carried by a
"Bearer ..." Authorization header (`bearerToken` stands for that already
extracted token), verifies it with jwt.verify against the process secret
only — the decoded type/kind field is never inspected — and on success
attaches the decoded payload as req.user and calls next(). -/
def authenticateJwt (accessCookie : Option Jwt) (bearerToken : Option Jwt)
    (secret : String) (now : Nat) : AuthOutcome :=
  let token := match accessCookie with
    | some t => some t
    | none => bearerToken
  match token with
  | none => .unauthorizedNoToken
  | some t =>
    match jwtVerify t secret now with
    | .ok decoded => .authenticated decoded
    | .error _ => .unauthorizedInvalidToken

/-! ## Refresh controller (src/api/controllers/user.controller.ts) -/

/-- UserService.findUserById backed by an in-memory user table keyed by
_id. -/
def findUserById (db : List IUser) (id : String) : Option IUser :=
  db.find? (fun u => u._id == id)

/-- The observable effect of one controller run: HTTP status plus the
cookie operations performed on the response, in order. -/
structure HttpResponse where
  status : Nat
  cookieOps : List CookieOp
deriving DecidableEq, Repr

/-- UserController.refreshToken (user.controller.ts lines 194-251):
missing refresh_token cookie gives 401 with no cookie writes; a failed
verifyToken gives 401 after clearAuthCookies; a missing user gives 404
after clearAuthCookies; otherwise setAuthCookies runs on the freshly
looked-up user and the status is 200. -/
def refreshTokenController (refreshCookie : Option Jwt) (db : List IUser)
    (secret : String) (now : Nat) (isProduction : Bool) : HttpResponse :=
  match refreshCookie with
  | none => { status := 401, cookieOps := [] }
  | some refreshToken =>
    match verifyToken refreshToken .refresh secret now with
    | none => { status := 401, cookieOps := clearAuthCookies isProduction }
    | some decoded =>
      match findUserById db decoded.id with
      | none => { status := 404, cookieOps := clearAuthCookies isProduction }
      | some user =>
        { status := 200, cookieOps := setAuthCookies user secret now isProduction }

/-! ## Provider factory (src/db/database.factory.ts) -/

/-- DatabaseConfig interface (database.interface.ts lines 43-48). -/
structure DatabaseConfig where
  uri : String
  user : Option String := none
  pass : Option String := none
  options : List (String × String) := []
deriving DecidableEq, Repr

/-- One constructed provider instance.  `instId` is the allocation number
handed out when new MongoDBProvider(config) ran, so two provider values
are identity-equal exactly when their instIds agree. -/
structure DatabaseProviderInst where
  instId : Nat
  dbType : String
  config : DatabaseConfig
deriving DecidableEq, Repr

/-- The static state of DatabaseFactory: the providers map plus the
allocation counter for fresh instances. -/
structure FactoryState where
  providers : List (String × DatabaseProviderInst)
  nextId : Nat
deriving DecidableEq, Repr

def FactoryState.emptyState : FactoryState := { providers := [], nextId := 0 }

inductive FactoryError
  | notImplemented (dbType : String)
  | unsupported (dbType : String)
deriving DecidableEq, Repr

/-- DatabaseFactory.createProvider (lines 22-50): return the cached
instance if one exists for the type (the config argument is ignored in
that branch); otherwise construct one for "mongodb", throw for
"postgres"/"mysql" (not yet implemented) and for unknown types, storing
the new instance in the map before returning it.  Since the key is absent
in that branch, consing the new entry is observably the same as the Map
insertion of the source. -/
def createProvider (s : FactoryState) (dbType : String)
    (config : DatabaseConfig) :
    Except FactoryError (DatabaseProviderInst × FactoryState) :=
  match s.providers.lookup dbType with
  | some existingProvider => .ok (existingProvider, s)
  | none =>
    if dbType = "mongodb" then
      let provider : DatabaseProviderInst :=
        { instId := s.nextId, dbType := dbType, config := config }
      .ok (provider,
           { providers := (dbType, provider) :: s.providers,
             nextId := s.nextId + 1 })
    else if dbType = "postgres" ∨ dbType = "mysql" then
      .error (.notImplemented dbType)
    else
      .error (.unsupported dbType)

/-- DatabaseFactory.getProvider (lines 57-59). -/
def getProvider (s : FactoryState) (dbType : String) :
    Option DatabaseProviderInst :=
  s.providers.lookup dbType

/-- Result of one closeAll run. -/
structure CloseAllResult where
  attempted : List DatabaseProviderInst
  allOk : Bool
  finalState : FactoryState
deriving DecidableEq, Repr

/-- DatabaseFactory.closeAll (lines 64-75): pushes provider.disconnect()
for every registry entry — so every disconnect is initiated before any is
awaited — then awaits Promise.all(closePromises).  When every disconnect
fulfils, this.providers.clear() runs; when any disconnect rejects,
Promise.all rejects and the clear() on line 73 never executes, leaving
the registry as it was.  `disconnectOk` is the environment verdict on
each disconnect. -/
def closeAll (s : FactoryState)
    (disconnectOk : DatabaseProviderInst → Bool) : CloseAllResult :=
  let attempted := s.providers.map (fun e => e.2)
  if attempted.all disconnectOk then
    { attempted := attempted, allOk := true,
      finalState := { providers := [], nextId := s.nextId } }
  else
    { attempted := attempted, allOk := false, finalState := s }

/-! ## MongoDB provider lifecycle (src/db/providers/mongodb.provider.ts) -/

/-- ConnectionEvent type field (database.interface.ts lines 34-38). -/
inductive ConnEventType
  | connected
  | disconnected
  | error
deriving DecidableEq, Repr

/-- ConnectionEvent: type, timestamp, optional message. -/
structure ConnectionEvent where
  type : ConnEventType
  timestamp : Nat
  message : Option String
deriving DecidableEq, Repr

/-- State of one MongoDBProvider together with the shared mongoose
connection it wraps: `connection` is whether this.connection is non-null,
`readyState` is mongoose.connection.readyState (1 = connected),
`connectionEvents` is the event log, `listeners` records which handlers
have been installed on the mongoose connection via .on (in installation
order, duplicates possible), `handshakes` counts the mongoose.connect
handshakes actually issued. -/
structure MongoProviderState where
  connection : Bool
  readyState : Nat
  connectionEvents : List ConnectionEvent
  listeners : List ConnEventType
  handshakes : Nat
deriving DecidableEq, Repr

/-- A freshly constructed MongoDBProvider over the default (disconnected)
mongoose connection: no handle, readyState 0, empty log, no listeners. -/
def MongoProviderState.initial : MongoProviderState :=
  { connection := false, readyState := 0, connectionEvents := [],
    listeners := [], handshakes := 0 }

/-- MongoDBProvider.isConnected (lines 156-158): this.connection !== null
and readyState === 1. -/
def MongoProviderState.isConnected (s : MongoProviderState) : Bool :=
  s.connection && s.readyState == 1

/-- Emission of a mongoose lifecycle signal: every handler registered for
`t` at that moment runs once; each handler body (mongodb.provider.ts
lines 98-126) pushes exactly one ConnectionEvent onto the log. -/
def emitSignal (s : MongoProviderState) (t : ConnEventType) (now : Nat)
    (msg : String) : MongoProviderState :=
  let fired := List.map
    (fun _ =>
      ({ type := t, timestamp := now, message := some msg } : ConnectionEvent))
    (s.listeners.filter (fun l => l == t))
  { s with connectionEvents := s.connectionEvents ++ fired }

/-- MongoDBProvider.connect (lines 70-140).  If isConnected, return with
no handshake.  Otherwise await mongoose.connect — `handshakeOk` is the
environment verdict on that handshake.  When the handshake succeeds,
mongoose moves readyState to 1 and emits the native "connected" signal at
the moment the connection opens, i.e. by the time the awaited promise
resolves; only listeners already installed at that moment observe it.
The code then sets this.connection and installs its three listeners.
When the handshake fails, the catch block pushes an error event directly
and rethrows (the .error result). -/
def MongoProviderState.connect (s : MongoProviderState) (now : Nat)
    (handshakeOk : Bool) : Except MongoProviderState MongoProviderState :=
  if s.isConnected then
    .ok s
  else if handshakeOk then
    let afterHandshake :=
      emitSignal { s with readyState := 1, handshakes := s.handshakes + 1 }
        .connected now "MongoDB connection established"
    .ok { afterHandshake with
          connection := true,
          listeners := afterHandshake.listeners ++
            [.connected, .disconnected, .error] }
  else
    .error { s with
             handshakes := s.handshakes + 1,
             connectionEvents := s.connectionEvents ++
               [{ type := .error, timestamp := now,
                  message := some "Failed to connect to MongoDB" }] }

/-! ## Heap model for getConnectionEvents (mongodb.provider.ts 199-201)

JavaScript arrays and the ConnectionEvent objects they hold are mutable
heap objects; `[...this.connectionEvents]` allocates a new array holding
the same object references.  The heap maps array references to lists of
event references and event references to event contents. -/

structure ObjStore where
  arrays : Nat → List Nat
  arrayCount : Nat
  events : Nat → ConnectionEvent

/-- MongoDBProvider.getConnectionEvents (lines 199-201): allocates a
fresh array containing the same event references as the internal
this.connectionEvents array `selfEvents`, and returns its reference. -/
def getConnectionEvents (st : ObjStore) (selfEvents : Nat) :
    ObjStore × Nat :=
  ({ st with
     arrays := Function.update st.arrays st.arrayCount (st.arrays selfEvents),
     arrayCount := st.arrayCount + 1 },
   st.arrayCount)

/-- Mutations a caller can apply through the value returned by
getConnectionEvents: mutate the array object itself (push/pop/assign an
element) or mutate one of the ConnectionEvent objects it references. -/
inductive CallerMutation
  | arrayPush (a r : Nat)
  | arrayPop (a : Nat)
  | arraySet (a i r : Nat)
  | eventSetMessage (r : Nat) (msg : Option String)
deriving DecidableEq, Repr

def applyMutation (st : ObjStore) (m : CallerMutation) : ObjStore :=
  match m with
  | .arrayPush a r =>
    { st with arrays := Function.update st.arrays a (st.arrays a ++ [r]) }
  | .arrayPop a =>
    { st with arrays := Function.update st.arrays a (st.arrays a).dropLast }
  | .arraySet a i r =>
    { st with arrays := Function.update st.arrays a ((st.arrays a).set i r) }
  | .eventSetMessage r msg =>
    { st with events :=
        Function.update st.events r { st.events r with message := msg } }

def applyMutations (st : ObjStore) (ms : List CallerMutation) : ObjStore :=
  ms.foldl applyMutation st

/-- The internal event history as an observer reads it: the contents of
the event objects referenced by the internal this.connectionEvents
array. -/
def internalHistory (st : ObjStore) (selfEvents : Nat) :
    List ConnectionEvent :=
  (st.arrays selfEvents).map st.events

/-- True when the mutation touches only the array object `a` (and no
event object). -/
def targetsOnlyArray (a : Nat) : CallerMutation → Bool
  | .arrayPush b _ => b == a
  | .arrayPop b => b == a
  | .arraySet b _ _ => b == a
  | .eventSetMessage _ _ => false

/-- A provider heap with one logged event, used as concrete input. -/
def demoStore : ObjStore :=
  { arrays := Function.update (fun _ => []) 0 [0],
    arrayCount := 1,
    events := fun _ =>
      { type := .connected, timestamp := 5,
        message := some "MongoDB connection established" } }

/-! ## Concrete inputs used by witnesses -/

def demoUser : IUser :=
  { _id := "u1", username := "alice", email := "alice@example.com",
    password := "hashedpw1", role := "user" }

def demoPayload : TokenPayload :=
  { id := "u1", username := "alice", role := "user", type := .access }

/-! ## Theorems -/

/-- C1: verifyToken fails closed.  For every token and expected kind it
returns a value (the Option codomain — the try/catch turns every
jwt.verify throw into null): null on a malformed envelope, on a bad
signature, on an expired timestamp, and on a kind mismatch; the decoded
claims on success.  In particular an access-kind token checked against
REFRESH and a refresh-kind token checked against ACCESS are both
rejected. -/
theorem verifyToken_fails_closed (token : Jwt) (expected : TokenType)
    (secret : String) (now : Nat) (u : IUser) :
    (∀ raw, token = .malformed raw →
        verifyToken token expected secret now = none) ∧
    (∀ p iat exp sig, token = .signed p iat exp sig → sig ≠ secret →
        verifyToken token expected secret now = none) ∧
    (∀ p iat exp sig, token = .signed p iat exp sig → exp ≤ now →
        verifyToken token expected secret now = none) ∧
    (∀ p iat exp, token = .signed p iat exp secret → now < exp →
        p.type ≠ expected → verifyToken token expected secret now = none) ∧
    (∀ p iat exp, token = .signed p iat exp secret → now < exp →
        p.type = expected → verifyToken token expected secret now = some p) ∧
    verifyToken (generateAccessToken u secret now) .refresh secret now = none ∧
    verifyToken (generateRefreshToken u secret now) .access secret now = none := by
  have hacc : ¬ (now + 15 * 60 ≤ now) := by omega
  have href : ¬ (now + 7 * 24 * 60 * 60 ≤ now) := by omega
  refine ⟨?_, ?_, ?_, ?_, ?_, ?_, ?_⟩
  · rintro raw rfl
    rfl
  · rintro p iat exp sig rfl hs
    simp [verifyToken, jwtVerify, hs]
  · rintro p iat exp sig rfl hx
    by_cases hs : sig = secret
    · subst hs
      simp [verifyToken, jwtVerify, hx]
    · simp [verifyToken, jwtVerify, hs]
  · rintro p iat exp rfl hlt hty
    simp [verifyToken, jwtVerify, Nat.not_le.mpr hlt, hty]
  · rintro p iat exp rfl hlt hty
    simp [verifyToken, jwtVerify, Nat.not_le.mpr hlt, hty]
  · simp [generateAccessToken, jwtSign, verifyToken, jwtVerify, hacc]
  · simp [generateRefreshToken, jwtSign, verifyToken, jwtVerify, href]

theorem verifyToken_fails_closed_witness :
    verifyToken (Jwt.signed demoPayload 0 10 "s") .refresh "s" 3 = none :=
  (verifyToken_fails_closed (Jwt.signed demoPayload 0 10 "s") .refresh "s" 3
      demoUser).2.2.2.1
    demoPayload 0 10 rfl (by decide) (by decide)

/-- C6: generateAuthTokens followed immediately by verifyToken of the
access half against ACCESS and of the refresh half against REFRESH both
succeed, and the decoded claims carry the subject id, username and role
of the input principal. -/
theorem generateAuthTokens_verify_roundtrip (u : IUser) (secret : String)
    (now : Nat) :
    verifyToken (generateAuthTokens u secret now).1 .access secret now
      = some { id := u._id, username := u.username, role := u.role,
               type := .access } ∧
    verifyToken (generateAuthTokens u secret now).2 .refresh secret now
      = some { id := u._id, username := u.username, role := u.role,
               type := .refresh } := by
  have hacc : ¬ (now + 15 * 60 ≤ now) := by omega
  have href : ¬ (now + 7 * 24 * 60 * 60 ≤ now) := by omega
  constructor
  · simp [generateAuthTokens, generateAccessToken, jwtSign, verifyToken,
      jwtVerify, hacc]
  · simp [generateAuthTokens, generateRefreshToken, jwtSign, verifyToken,
      jwtVerify, href]

/-- C8: the envelope issued by generateAccessToken expires 15 minutes
(15 * 60 seconds) after its issuance time, and the envelope issued by
generateRefreshToken expires 7 days (7 * 24 * 60 * 60 seconds) after its
issuance time. -/
theorem token_expirations (u : IUser) (secret : String) (now : Nat) :
    tokenIat (generateAccessToken u secret now) = some now ∧
    tokenExp (generateAccessToken u secret now) = some (now + 15 * 60) ∧
    tokenIat (generateRefreshToken u secret now) = some now ∧
    tokenExp (generateRefreshToken u secret now)
      = some (now + 7 * 24 * 60 * 60) :=
  ⟨rfl, rfl, rfl, rfl⟩

/-- C9: setAuthCookies writes exactly two cookies, access_token then
refresh_token, both HttpOnly with Path "/", Secure exactly in production,
SameSite None in production and Lax otherwise, with Max-Age 900 seconds
for the access cookie and 604800 seconds for the refresh cookie. -/
theorem setAuthCookies_spec (u : IUser) (secret : String) (now : Nat)
    (isProduction : Bool) :
    setAuthCookies u secret now isProduction
      = [ CookieOp.setCookie "access_token" (generateAccessToken u secret now)
            { httpOnly := true, secure := isProduction,
              sameSite := if isProduction then .sameSiteNone else .lax,
              path := "/", maxAgeMs := some (15 * 60 * 1000) },
          CookieOp.setCookie "refresh_token" (generateRefreshToken u secret now)
            { httpOnly := true, secure := isProduction,
              sameSite := if isProduction then .sameSiteNone else .lax,
              path := "/", maxAgeMs := some (7 * 24 * 60 * 60 * 1000) } ] ∧
    maxAgeSeconds (accessTokenCookieOptions isProduction) = some 900 ∧
    maxAgeSeconds (refreshTokenCookieOptions isProduction) = some 604800 :=
  ⟨rfl, rfl, rfl⟩

/-- C4: authenticateJwt accepts any well-formed, unexpired token signed
with the process secret without inspecting its kind claim: a signed,
unexpired envelope authenticates whatever its type field is, from the
access_token cookie or from the Authorization header, and a refresh token
issued by generateRefreshToken authenticates a protected request exactly
as the corresponding access token does (yielding the same principal
fields). -/
theorem authenticateJwt_ignores_token_kind (p : TokenPayload) (u : IUser)
    (secret : String) (now iat exp : Nat) (h : now < exp) :
    authenticateJwt (some (Jwt.signed p iat exp secret)) none secret now
      = .authenticated p ∧
    authenticateJwt none (some (Jwt.signed p iat exp secret)) secret now
      = .authenticated p ∧
    authenticateJwt (some (generateRefreshToken u secret now)) none secret now
      = .authenticated { id := u._id, username := u.username, role := u.role,
                         type := .refresh } ∧
    authenticateJwt (some (generateAccessToken u secret now)) none secret now
      = .authenticated { id := u._id, username := u.username, role := u.role,
                         type := .access } := by
  have h1 : ¬ (exp ≤ now) := Nat.not_le.mpr h
  have h2 : ¬ (now + 15 * 60 ≤ now) := by omega
  have h3 : ¬ (now + 7 * 24 * 60 * 60 ≤ now) := by omega
  refine ⟨?_, ?_, ?_, ?_⟩ <;>
    simp [authenticateJwt, jwtVerify, generateAccessToken,
      generateRefreshToken, jwtSign, h1, h2, h3]

theorem authenticateJwt_ignores_token_kind_witness :
    authenticateJwt
      (some (Jwt.signed { id := "u1", username := "alice", role := "user",
                          type := .refresh } 0 1 "s")) none "s" 0
      = .authenticated { id := "u1", username := "alice", role := "user",
                         type := .refresh } :=
  (authenticateJwt_ignores_token_kind
    { id := "u1", username := "alice", role := "user", type := .refresh }
    demoUser "s" 0 0 1 (by decide)).1

/-- C5: the refresh flow.  An absent refresh cookie yields 401 with no
cookie operations; a refresh cookie failing verifyToken (signature,
expiry or kind mismatch) yields clearAuthCookies; a verified cookie whose
principal is no longer in the database yields clearAuthCookies; on
success setAuthCookies issues a fresh access+refresh pair from the
freshly looked-up principal. -/
theorem refreshTokenController_flow (rt : Jwt) (db : List IUser)
    (secret : String) (now : Nat) (isProduction : Bool) :
    refreshTokenController none db secret now isProduction
      = { status := 401, cookieOps := [] } ∧
    (verifyToken rt .refresh secret now = none →
      refreshTokenController (some rt) db secret now isProduction
        = { status := 401, cookieOps := clearAuthCookies isProduction }) ∧
    (∀ decoded, verifyToken rt .refresh secret now = some decoded →
      findUserById db decoded.id = none →
      refreshTokenController (some rt) db secret now isProduction
        = { status := 404, cookieOps := clearAuthCookies isProduction }) ∧
    (∀ decoded user, verifyToken rt .refresh secret now = some decoded →
      findUserById db decoded.id = some user →
      refreshTokenController (some rt) db secret now isProduction
        = { status := 200,
            cookieOps := setAuthCookies user secret now isProduction }) := by
  refine ⟨rfl, ?_, ?_, ?_⟩
  · intro hv
    simp [refreshTokenController, hv]
  · intro d hv hu
    simp [refreshTokenController, hv, hu]
  · intro d u hv hu
    simp [refreshTokenController, hv, hu]

theorem refreshTokenController_flow_witness :
    refreshTokenController (some (generateRefreshToken demoUser "s" 0))
      [demoUser] "s" 0 false
      = { status := 200, cookieOps := setAuthCookies demoUser "s" 0 false } :=
  (refreshTokenController_flow (generateRefreshToken demoUser "s" 0)
      [demoUser] "s" 0 false).2.2.2
    { id := "u1", username := "alice", role := "user", type := .refresh }
    demoUser (by decide) (by decide)

/-- C2: createProvider is first-writer-wins idempotent.  Whenever a call
returns a provider instance and a registry state, a second call for the
same backend type — with any (possibly different) config — returns the
identity-same instance and leaves the registry state untouched. -/
theorem createProvider_first_writer_wins (s s' : FactoryState)
    (dbType : String) (cfg1 cfg2 : DatabaseConfig)
    (p : DatabaseProviderInst)
    (h : createProvider s dbType cfg1 = .ok (p, s')) :
    createProvider s' dbType cfg2 = .ok (p, s') := by
  cases hl : s.providers.lookup dbType with
  | some q =>
      simp [createProvider, hl] at h
      obtain ⟨h1, h2⟩ := h
      subst h1
      subst h2
      simp [createProvider, hl]
  | none =>
      by_cases hm : dbType = "mongodb"
      · subst hm
        simp [createProvider, hl] at h
        obtain ⟨h1, h2⟩ := h
        subst h1
        subst h2
        simp [createProvider, List.lookup]
      · by_cases hp : dbType = "postgres" ∨ dbType = "mysql"
        · simp [createProvider, hl, hm, hp] at h
        · simp [createProvider, hl, hm, hp] at h

theorem createProvider_first_writer_wins_witness :
    createProvider
      { providers :=
          [("mongodb",
            { instId := 0, dbType := "mongodb",
              config := { uri := "mongodb://localhost:27017/a" } })],
        nextId := 1 }
      "mongodb" { uri := "mongodb://localhost:27017/b" }
      = .ok ({ instId := 0, dbType := "mongodb",
               config := { uri := "mongodb://localhost:27017/a" } },
             { providers :=
                 [("mongodb",
                   { instId := 0, dbType := "mongodb",
                     config := { uri := "mongodb://localhost:27017/a" } })],
               nextId := 1 }) :=
  createProvider_first_writer_wins FactoryState.emptyState _ "mongodb"
    { uri := "mongodb://localhost:27017/a" }
    { uri := "mongodb://localhost:27017/b" } _ (by rfl)

/-! ### closeAll under a failing disconnect (C3) -/

def demoProviderA : DatabaseProviderInst :=
  { instId := 0, dbType := "mongodb",
    config := { uri := "mongodb://localhost:27017/test" } }

def demoProviderB : DatabaseProviderInst :=
  { instId := 1, dbType := "postgres",
    config := { uri := "postgres://localhost:5432/test" } }

def demoRegistry : FactoryState :=
  { providers := [("mongodb", demoProviderA), ("postgres", demoProviderB)],
    nextId := 2 }

/-- C3 (code divergence): with two registered providers of which the
first rejects its disconnect, closeAll still initiates disconnect on both
— but the registry is NOT left empty: Promise.all rejects, so the
this.providers.clear() that follows the await never runs and the registry
keeps both entries.  When every disconnect fulfils, the registry is
cleared. -/
theorem closeAll_failure_skips_clear :
    (closeAll demoRegistry (fun p => p.instId != 0)).attempted
      = [demoProviderA, demoProviderB] ∧
    (closeAll demoRegistry (fun p => p.instId != 0)).allOk = false ∧
    (closeAll demoRegistry (fun p => p.instId != 0)).finalState
      = demoRegistry ∧
    (closeAll demoRegistry (fun p => p.instId != 0)).finalState.providers
      ≠ [] ∧
    (closeAll demoRegistry (fun _ => true)).finalState.providers = [] := by
  refine ⟨rfl, rfl, rfl, ?_, rfl⟩
  decide

/-! ### MongoDB provider connect (C7) -/

/-- The provider state reached by the first successful connect. -/
def connectedState : MongoProviderState :=
  { connection := true, readyState := 1, connectionEvents := [],
    listeners := [.connected, .disconnected, .error], handshakes := 1 }

/-- C7 (code divergence): from the freshly constructed provider a
successful connect yields isConnected = true, but the event log is left
EMPTY — the listener translating the mongoose "connected" signal into a
ConnectionEvent is installed only after mongoose.connect has resolved,
which is when that signal fires, so no connected event is recorded.  The
already-connected branch is a no-op: the same state comes back unchanged
without a handshake (the handshake counter stays at 1) even when the
environment would fail a handshake. -/
theorem connect_first_success_records_no_event :
    MongoProviderState.connect MongoProviderState.initial 0 true
      = .ok connectedState ∧
    connectedState.isConnected = true ∧
    (connectedState.connectionEvents.filter
      (fun e => e.type == .connected)).length = 0 ∧
    MongoProviderState.connect connectedState 7 false = .ok connectedState :=
  ⟨rfl, rfl, rfl, rfl⟩

/-! ### Defensive copy of the event log (C10) -/

/-- Frame property of a single caller mutation that targets only the
array object `a`: every other array object and every event object is
untouched. -/
theorem applyMutation_frame (st : ObjStore) (m : CallerMutation) (a : Nat)
    (hm : targetsOnlyArray a m = true) :
    (∀ x, x ≠ a → (applyMutation st m).arrays x = st.arrays x) ∧
    (applyMutation st m).events = st.events := by
  cases m with
  | arrayPush b r =>
      obtain rfl : b = a := by simpa [targetsOnlyArray] using hm
      exact ⟨fun x hx => Function.update_noteq hx _ _, rfl⟩
  | arrayPop b =>
      obtain rfl : b = a := by simpa [targetsOnlyArray] using hm
      exact ⟨fun x hx => Function.update_noteq hx _ _, rfl⟩
  | arraySet b i r =>
      obtain rfl : b = a := by simpa [targetsOnlyArray] using hm
      exact ⟨fun x hx => Function.update_noteq hx _ _, rfl⟩
  | eventSetMessage r msg =>
      simp [targetsOnlyArray] at hm

/-- Frame property of a sequence of caller mutations that target only the
array object `a`. -/
theorem applyMutations_frame (ms : List CallerMutation) (st : ObjStore)
    (a : Nat) (h : ms.all (targetsOnlyArray a) = true) :
    (∀ x, x ≠ a → (applyMutations st ms).arrays x = st.arrays x) ∧
    (applyMutations st ms).events = st.events := by
  induction ms generalizing st with
  | nil => exact ⟨fun _ _ => rfl, rfl⟩
  | cons m rest ih =>
      rw [List.all_cons, Bool.and_eq_true] at h
      obtain ⟨hm, hrest⟩ := h
      obtain ⟨ha1, he1⟩ := applyMutation_frame st m a hm
      obtain ⟨ha2, he2⟩ := ih (applyMutation st m) hrest
      have hstep : applyMutations st (m :: rest)
          = applyMutations (applyMutation st m) rest := rfl
      refine ⟨fun x hx => ?_, ?_⟩
      · rw [hstep, ha2 x hx, ha1 x hx]
      · rw [hstep, he2, he1]

/-- C10 counterexample: the copy made by getConnectionEvents is shallow.
The event reference 0 is reachable through the returned array, and a
caller mutation of that event object changes the internal event
history — refuting the claim for mutation sequences that touch the event
objects held by the returned value. -/
theorem getConnectionEvents_shallow_copy_counterexample :
    0 ∈ (getConnectionEvents demoStore 0).1.arrays
          (getConnectionEvents demoStore 0).2 ∧
    internalHistory
      (applyMutations (getConnectionEvents demoStore 0).1
        [CallerMutation.eventSetMessage 0 (some "tampered")]) 0
      ≠ internalHistory demoStore 0 := by
  constructor
  · decide
  · decide

/-- C10 amended: getConnectionEvents allocates a fresh array — distinct
from every live array reference, in particular from the internal
this.connectionEvents array — so every sequence of caller mutations that
targets only the returned array object (push, pop, element assignment)
leaves the internal event history unchanged.  (Mutating the shared
ConnectionEvent objects reachable through it is excluded: the copy is
shallow.) -/
theorem getConnectionEvents_defensive_array (st : ObjStore)
    (selfEvents : Nat) (hlive : selfEvents < st.arrayCount)
    (ms : List CallerMutation)
    (hms : ms.all (targetsOnlyArray (getConnectionEvents st selfEvents).2)
      = true) :
    internalHistory
        (applyMutations (getConnectionEvents st selfEvents).1 ms) selfEvents
      = internalHistory st selfEvents := by
  have hne : selfEvents ≠ st.arrayCount := Nat.ne_of_lt hlive
  obtain ⟨harr, hev⟩ :=
    applyMutations_frame ms (getConnectionEvents st selfEvents).1
      st.arrayCount hms
  unfold internalHistory
  rw [harr selfEvents hne, hev]
  show ((Function.update st.arrays st.arrayCount
          (st.arrays selfEvents)) selfEvents).map st.events = _
  rw [Function.update_noteq hne]

theorem getConnectionEvents_defensive_array_witness :
    internalHistory
        (applyMutations (getConnectionEvents demoStore 0).1
          [CallerMutation.arrayPush 1 7, CallerMutation.arrayPop 1,
           CallerMutation.arraySet 1 0 3]) 0
      = internalHistory demoStore 0 :=
  getConnectionEvents_defensive_array demoStore 0 (by decide)
    [CallerMutation.arrayPush 1 7, CallerMutation.arrayPop 1,
     CallerMutation.arraySet 1 0 3] (by decide)

end LeafGraph
